import Mathlib

/-!
Verification of `internal/resource/container.go` (k9s container resource).

The Go source is shallowly embedded below.  Pure helpers (`List`, `Fields`,
`toState`, `toRes`, `resources`, `probe`) become Lean functions over a direct
translation of the Kubernetes data they touch.  The concurrent `Logs` routine
(watchdog goroutine, stream opener, bridge goroutine) is embedded as a small
operational model: each goroutine is a sequence of atomic events, an execution
is an interleaving of those sequences, and a step function over an explicit
session state interprets each event exactly as the corresponding source lines
do (a Go `close` on a channel increments a close counter so that double closes
are observable; a send on a closed channel is recorded, since in Go it panics).
-/

namespace K9s

/-! ## Kubernetes data model (the fields container.go reads) -/

/-- Model of `resource.Quantity`: the two accessors used by the source,
`MilliValue()` and `Value()`. -/
structure Quantity where
  milli : Int
  value : Int
deriving Repr, DecidableEq

/-- The zero `Quantity`, what a Go map lookup yields for an absent key. -/
def Quantity.zero : Quantity := ⟨0, 0⟩

/-- Model of `v1.ResourceList` (`map[ResourceName]Quantity`) as an association
list; only size and lookup of the `cpu` / `memory` keys are used. -/
abbrev ResourceList := List (String × Quantity)

/-- Go map indexing `r[k]`: zero value when the key is absent. -/
def ResourceList.get (r : ResourceList) (k : String) : Quantity :=
  match r.find? (fun p => p.1 == k) with
  | some p => p.2
  | none => Quantity.zero

/-- Model of `v1.ResourceRequirements` (the `Resources` field of a container). -/
structure ResourceRequirements where
  requests : ResourceList
  limits : ResourceList
deriving Repr, DecidableEq

/-- Model of `v1.Probe`: its content is never inspected, only nil-ness. -/
structure Probe where
deriving Repr, DecidableEq

/-- Model of `v1.ContainerStateWaiting`. -/
structure ContainerStateWaiting where
  reason : String
deriving Repr, DecidableEq

/-- Model of `v1.ContainerStateTerminated`. -/
structure ContainerStateTerminated where
  reason : String
deriving Repr, DecidableEq

/-- Model of `v1.ContainerStateRunning`: content unused. -/
structure ContainerStateRunning where
deriving Repr, DecidableEq

/-- Model of `v1.ContainerState`: three optional branches. -/
structure ContainerState where
  waiting : Option ContainerStateWaiting
  terminated : Option ContainerStateTerminated
  running : Option ContainerStateRunning
deriving Repr, DecidableEq

/-- Model of `v1.ContainerStatus`: the fields Fields reads. -/
structure ContainerStatus where
  name : String
  ready : Bool
  state : ContainerState
  restartCount : Int
deriving Repr, DecidableEq

/-- Model of `v1.Container`: the fields container.go reads. -/
structure V1Container where
  name : String
  image : String
  livenessProbe : Option Probe
  readinessProbe : Option Probe
  resources : ResourceRequirements
deriving Repr, DecidableEq

/-- Model of `v1.PodSpec` (containers only). -/
structure PodSpec where
  initContainers : List V1Container
  containers : List V1Container
deriving Repr, DecidableEq

/-- Model of `v1.PodStatus` (status lists only). -/
structure PodStatus where
  containerStatuses : List ContainerStatus
  initContainerStatuses : List ContainerStatus
deriving Repr, DecidableEq

/-- Model of `v1.Pod`: spec, status and creation timestamp (as an integer
epoch value; only passed through to the age formatter). -/
structure Pod where
  spec : PodSpec
  status : PodStatus
  creationTimestamp : Int
deriving Repr, DecidableEq

/-- One entry of `mv1beta1.PodMetrics.Containers`: name plus the two usage
numbers the source extracts (`Usage.Cpu().MilliValue()`, `Usage.Memory().Value()`). -/
structure ContainerMetrics where
  name : String
  cpuMilli : Int
  memValue : Int
deriving Repr, DecidableEq

/-! ## Helpers from elsewhere in the repository

These functions are referenced by container.go but defined in other files of
the repository that are not part of the extract; their exact output strings do
not decide any claim below, only that they are applied. -/

/-- Modelled from the spec: `MissingValue`, the missing-value display marker
constant defined in the resource package. -/
def MissingValue : String := "n/a"

/-- Modelled from the spec: `boolToStr`, boolean to display string. -/
def boolToStr (b : Bool) : String := if b then "true" else "false"

/-- Modelled from the spec: `ToMillicore`, millicore count to display string. -/
def ToMillicore (v : Int) : String := toString v

/-- Modelled from the spec: `ToMi`, megabyte count to display string.  The Go
value is a float; the model keeps the integral megabyte count. -/
def ToMi (v : Int) : String := toString v

/-- Modelled from the spec: `k8s.ToMB`, bytes to megabytes (float in Go,
integral division here). -/
def ToMB (v : Int) : Int := v / (1024 * 1024)

/-- Modelled from the spec: `toAge`, creation timestamp to age string. -/
def toAge (t : Int) : String := toString t

/-! ## Pure helpers of container.go -/

/-- `toState` (container.go:228-246): display string of a container state. -/
def toState (s : ContainerState) : String :=
  match s.waiting with
  | some w => if w.reason != "" then w.reason else "Waiting"
  | none =>
    match s.terminated with
    | some t => if t.reason != "" then t.reason else "Terminated"
    | none =>
      match s.running with
      | some _ => "Running"
      | none => MissingValue

/-- `toRes` (container.go:248-252): format the cpu/memory entries of a
resource list. -/
def toRes (r : ResourceList) : String × String :=
  let cpu := r.get "cpu"
  let mem := r.get "memory"
  (ToMillicore cpu.milli, ToMi (ToMB mem.value))

/-- `resources` (container.go:254-266): requests take precedence over limits;
both empty yields ("0", "0"). -/
def resources (c : V1Container) : String × String :=
  let req := c.resources.requests
  let lim := c.resources.limits
  if req.length = 0 then
    if lim.length ≠ 0 then toRes lim else ("0", "0")
  else
    toRes req

/-- `probe` (container.go:268-274): probe presence as yes/no. -/
def probe (p : Option Probe) : String :=
  match p with
  | none => "no"
  | some _ => "yes"

/-- `asMi` (container.go:276-280), integral version. -/
def asMi (v : Int) : Int := v / (1024 * 1024)

/-! ## Container.List (container.go:132-147) -/

/-- One element of the `Columnars` slice built by `Container.List`: `New`
stores the `v1.Container` instance; the first loop then sets `isInit`. -/
structure ContainerEntry where
  instance_ : V1Container
  isInit : Bool
deriving Repr, DecidableEq

/-- A Go interface value holding a `v1.Container` either by value or by
pointer: the dynamic content of the `interface` argument of `Container.New`
(container.go:54). -/
inductive GoIface where
  | containerVal (c : V1Container)
  | containerPtr (c : V1Container)
deriving Repr, DecidableEq

/-- Outcome of a Go computation that may panic at runtime. -/
inductive GoResult (α : Type) where
  | ok (a : α)
  | panic (msg : String)
deriving Repr, DecidableEq

/-- The runtime message of a failed single-value type assertion from a
`v1.Container` value to the pointer type `*v1.Container`. -/
def assertionPanic : String :=
  "interface conversion: v1.Container is not *v1.Container"

/-- `Container.New` (container.go:54-60), as far as `List` observes it: the
assignment `co.instance = i.(*v1.Container)` (container.go:56) is a
single-value type assertion to a pointer type, so it succeeds only when the
interface holds a `*v1.Container` and panics when it holds a plain
`v1.Container` value; the fresh entry's `isInit` is at its false zero
value. -/
def NewEntry (i : GoIface) : GoResult ContainerEntry :=
  match i with
  | .containerPtr c => .ok { instance_ := c, isInit := false }
  | .containerVal _ => .panic assertionPanic

/-- One loop of `Container.List` (container.go:137-141, 142-144): each
iteration passes the loop value `co` to `New` — boxed as a `v1.Container`
value, not a pointer (`r.New(co)` at container.go:138 and 143) — and a
panic aborts the remaining iterations; the init loop sets `isInit` on the
entry it built. -/
def buildEntries (isInit : Bool) : List V1Container → GoResult (List ContainerEntry)
  | [] => .ok []
  | co :: rest =>
    match NewEntry (.containerVal co) with
    | .panic m => .panic m
    | .ok e =>
      match buildEntries isInit rest with
      | .panic m => .panic m
      | .ok es => .ok ({ e with isInit := isInit } :: es)

/-- `Container.List` (container.go:132-147): run the init-container loop,
then the regular-container loop; a panic in either propagates, and on the
(only) non-panicking path the returned error is nil (`none`). -/
def ContainerList (pod : Pod) : GoResult (List ContainerEntry × Option String) :=
  match buildEntries true pod.spec.initContainers with
  | .panic m => .panic m
  | .ok ics =>
    match buildEntries false pod.spec.containers with
    | .panic m => .panic m
    | .ok cs => .ok (ics ++ cs, none)

/-! ## Container.Fields (container.go:170-223) -/

/-- The status-selection loop of `Fields` (container.go:188-193 and 196-202):
scan the list, remembering the matching element; a later match overwrites an
earlier one, so the last match wins.  (Embedded with per-iteration loop
variable semantics: `cs = &c` captures the current element.) -/
def findStatus (statuses : List ContainerStatus) (n : String) :
    Option ContainerStatus :=
  statuses.foldl (fun cs c => if c.name != n then cs else some c) none

/-- The metrics loop of `Fields` (container.go:176-184): first entry matching
the instance name supplies cpu/mem usage; otherwise both stay zero. -/
def metricsFor (metrics : List ContainerMetrics) (n : String) : Int × Int :=
  match metrics.find? (fun co => co.name == n) with
  | some co => (co.cpuMilli, ToMB co.memValue)
  | none => (0, 0)

/-- `Container.Fields` (container.go:170-223): the displayable row for one
container instance of a pod, given the pod metrics entries. -/
def Fields (pod : Pod) (i : V1Container) (metrics : List ContainerMetrics) :
    List String :=
  let cpuMem := metricsFor metrics i.name
  let rr := resources i
  let cs :=
    match findStatus pod.status.containerStatuses i.name with
    | some c => some c
    | none => findStatus pod.status.initContainerStatuses i.name
  let rsr :=
    match cs with
    | some c => (boolToStr c.ready, toState c.state, toString c.restartCount)
    | none => ("false", MissingValue, "0")
  [i.name, i.image, rsr.1, rsr.2.1, rsr.2.2,
    probe i.livenessProbe, probe i.readinessProbe,
    ToMillicore cpuMem.1, ToMi cpuMem.2, rr.1, rr.2,
    toAge pod.creationTimestamp]

/-! ## The Logs tail session (container.go:72-129)

`Logs` creates a cancellable context (75), arms a watchdog goroutine (79-94),
performs the blocking `req.Stream()` call (97), and on success clears the
`blocked` flag under the write lock (103-107) and launches the bridge
goroutine (109-126).  The model below makes every shared-state access an
atomic event; an execution is an interleaving of the per-goroutine event
sequences.  Go channel-close semantics are made observable: `chanCloses`
counts executions of `close(c)` (a count of 2 is a `close of closed channel`
runtime panic in Go), and `sentOnClosed` records a send on an already-closed
channel (also a runtime panic in Go). -/

/-- The shared state of one `Logs` call. -/
structure SessionState where
  /-- `blocked` (container.go:78), the mutex-guarded flag; `true` until the
  stream-open call has returned successfully. -/
  blocked : Bool
  /-- Number of times `close(c)` has executed on the delivery channel. -/
  chanCloses : Nat
  /-- The one-shot context cancellation signal (fired iff `cancel()` ran). -/
  cancelFired : Bool
  /-- Number of times `stream.Close()` has executed. -/
  streamCloses : Nat
  /-- Lines sent on the delivery channel, in send order. -/
  sent : List String
  /-- A send executed while `chanCloses > 0` (a Go runtime panic). -/
  sentOnClosed : Bool
  /-- `Logs` returned the open error to the caller (line 100). -/
  returnedErr : Bool
deriving Repr, DecidableEq

/-- Initial state of a session: `blocked := true` (container.go:78), nothing
closed, nothing sent. -/
def SessionState.init : SessionState :=
  { blocked := true, chanCloses := 0, cancelFired := false, streamCloses := 0
    sent := [], sentOnClosed := false, returnedErr := false }

/-- The "stream-opened" flag of the spec is the negation of `blocked`. -/
def SessionState.streamOpened (s : SessionState) : Bool := !s.blocked

/-- Atomic events of the goroutines of `Logs`. -/
inductive Event where
  /-- The watchdog timer elapses and its body runs (container.go:81-92):
  read `blocked` under the read lock; if still true, `close(c)` and
  `cancel()`; otherwise do nothing. -/
  | timer
  /-- `req.Stream()` returns successfully (container.go:97). -/
  | streamOk
  /-- `req.Stream()` returns an error; `Logs` returns `(cancel, err)`
  without closing the channel and without invoking cancel
  (container.go:98-101). -/
  | streamErr
  /-- `blocked = false` under the write lock (container.go:103-107). -/
  | unblock
  /-- The bridge sends one scanned line: `c <- scanner.Text()`
  (container.go:119). -/
  | send (l : String)
  /-- The bridge's deferred cleanup: `close(c); stream.Close(); cancel()`
  (container.go:110-115). -/
  | cleanup
  /-- The caller invokes the returned cancellation handle. -/
  | callerCancel
deriving Repr, DecidableEq

/-- Interpretation of one atomic event, following the cited source lines. -/
def step (s : SessionState) : Event → SessionState
  | .timer =>
    if s.blocked then
      { s with chanCloses := s.chanCloses + 1, cancelFired := true }
    else s
  | .streamOk => s
  | .streamErr => { s with returnedErr := true }
  | .unblock => { s with blocked := false }
  | .send l =>
    { s with sent := s.sent ++ [l],
             sentOnClosed := s.sentOnClosed || decide (0 < s.chanCloses) }
  | .cleanup =>
    { s with chanCloses := s.chanCloses + 1,
             streamCloses := s.streamCloses + 1,
             cancelFired := true }
  | .callerCancel => { s with cancelFired := true }

/-- Run a whole event trace from the initial session state. -/
def runTrace (es : List Event) : SessionState :=
  es.foldl step SessionState.init

/-- The watchdog goroutine (container.go:79-94): a single timer firing. -/
def watchdogThread : List Event := [.timer]

/-- The main goroutine on the success path, with the bridge it launches
serialized after it (the bridge's events can only follow `unblock`, and the
main goroutine performs no shared-state action after launching the bridge):
`req.Stream()` succeeds, `blocked` is cleared, then the bridge sends each
scanned line and finally runs its deferred cleanup. -/
def mainOk (lines : List String) : List Event :=
  .streamOk :: .unblock :: (lines.map Event.send ++ [.cleanup])

/-- The main goroutine on the open-failure path (container.go:98-101):
`req.Stream()` errors and `Logs` returns; no bridge is launched. -/
def mainErr : List Event := [.streamErr]

/-- Fuelled worker for `interleavings`; the fuel bounds the total length of
the two sequences, so it never runs out when called through `interleavings`. -/
def interleavingsF : Nat → List Event → List Event → List (List Event)
  | 0, _, _ => []
  | _ + 1, [], bs => [bs]
  | _ + 1, a :: as, [] => [a :: as]
  | fuel + 1, a :: as, b :: bs =>
    (interleavingsF fuel as (b :: bs)).map (fun t => a :: t) ++
      (interleavingsF fuel (a :: as) bs).map (fun t => b :: t)

/-- All interleavings of two event sequences: the executions in which each
goroutine's events occur in its own program order. -/
def interleavings (as bs : List Event) : List (List Event) :=
  interleavingsF (as.length + bs.length) as bs

/-! ## The bridge loop, denotationally (container.go:117-125)

For claims about what the bridge delivers, the loop is embedded as a
function of the stream's line list and of the instant the cancellation
signal fires.  The fire instant is measured in completed post-send checks:
`f = some n` means the signal becomes fired after the bridge has executed
exactly `n` of its `select { case <-ctx.Done(): ... }` checks (so check
number `n + 1` is the first to observe it); `f = none` means the signal
never fires during the loop. -/

/-- Model of a `req.Stream()` handle: the lines the scanner will produce and
whether the scan terminates with a read error (`scanner.Scan` returns false
in either case and `scanner.Err()` is never consulted by the source). -/
structure Stream where
  lines : List String
  readErr : Bool
deriving Repr, DecidableEq

/-- Whether the `k`-th post-send check (1-based) observes `ctx.Done()`
closed, for fire instant `f`. -/
def ctxDoneAt (f : Option Nat) (k : Nat) : Bool :=
  match f with
  | none => false
  | some n => n < k

/-- The scan loop (container.go:118-125), with `k` the number of checks
executed so far: while `scanner.Scan()` yields a line, send it, then check
the cancellation signal and stop if it has fired. -/
def bridgeScan : List String → Nat → Option Nat → List String
  | [], _, _ => []
  | l :: rest, k, f =>
    l :: (if ctxDoneAt f (k + 1) then [] else bridgeScan rest (k + 1) f)

/-- Observable outcome of one bridge goroutine execution. -/
structure BridgeResult where
  sent : List String
  chanCloses : Nat
  streamCloses : Nat
  cancelFired : Bool
deriving Repr, DecidableEq

/-- The bridge goroutine (container.go:109-126): the scan loop over the
opened stream followed by the deferred cleanup, which runs exactly once on
every exit of the loop and performs `close(c)`, `stream.Close()`,
`cancel()` (container.go:110-115).  The loop never reads `readErr`: a read
error merely makes `scanner.Scan` return false, exactly like end-of-data. -/
def bridgeRun (st : Stream) (f : Option Nat) : BridgeResult :=
  { sent := bridgeScan st.lines 0 f
    chanCloses := 1
    streamCloses := 1
    cancelFired := true }

/-! ## The one-shot cancellation signal (container.go:75) -/

/-- The three actors that may request cancellation. -/
inductive Actor where
  | watchdog
  | bridge
  | caller
deriving Repr, DecidableEq

/-- Modelled from the spec: the `context.CancelFunc` returned by
`context.WithCancel` at container.go:75 (standard-library code, not in the
extract).  Firing moves the signal to fired; the fired state is absorbing,
so a redundant call changes nothing. -/
def fireCancel (_ : Actor) (_fired : Bool) : Bool := true

/-- Run a sequence of cancellation requests from a starting signal state,
returning the final state and the number of armed-to-fired transitions. -/
def runFires : List Actor → Bool → Bool × Nat
  | [], s => (s, 0)
  | a :: rest, s =>
    let s2 := fireCancel a s
    let r := runFires rest s2
    (r.1, (if !s && s2 then 1 else 0) + r.2)

/-! ## Lemmas about the bridge loop -/

theorem bridgeScan_none (ls : List String) (k : Nat) : bridgeScan ls k none = ls := by
  induction ls generalizing k with
  | nil => rfl
  | cons l rest ih => simp [bridgeScan, ctxDoneAt, ih]

theorem bridgeScan_some (ls : List String) (k n : Nat) :
    bridgeScan ls k (some n) = ls.take (n - k + 1) := by
  induction ls generalizing k with
  | nil => simp [bridgeScan]
  | cons l rest ih =>
    by_cases h : n < k + 1
    · have h0 : n - k = 0 := by omega
      simp [bridgeScan, ctxDoneAt, h, h0]
    · have h1 : n - k + 1 = (n - (k + 1) + 1) + 1 := by omega
      simp [bridgeScan, ctxDoneAt, h, ih, h1]

/-- C3: on every bridge execution — whatever stopped the scan loop
(end-of-data, read error, or an observed cancellation) — the deferred
cleanup runs exactly once and performs all three steps: one close of the
delivery channel, one close of the stream handle, and a cancellation fire;
and a stream ending in a read error produces exactly the same result as one
ending normally (channel closed, no retry). -/
theorem logs_bridge_cleanup_once (st : Stream) (f : Option Nat) :
    (bridgeRun st f).chanCloses = 1 ∧
    (bridgeRun st f).streamCloses = 1 ∧
    (bridgeRun st f).cancelFired = true ∧
    bridgeRun { lines := st.lines, readErr := true } f =
      bridgeRun { lines := st.lines, readErr := false } f :=
  ⟨rfl, rfl, rfl, rfl⟩

/-- C5: for a tail that runs without cancellation, the bridge delivers
exactly the stream's lines, in FIFO order, with no duplicates and no drops,
and then the cleanup closes the channel once; in particular a stream
yielding a, b, c then ending delivers exactly a, b, c before the close. -/
theorem logs_fifo_delivery (ls : List String) :
    (bridgeRun { lines := ls, readErr := false } none).sent = ls ∧
    (bridgeRun { lines := ls, readErr := false } none).chanCloses = 1 ∧
    (bridgeRun { lines := ["a", "b", "c"], readErr := false } none).sent =
      ["a", "b", "c"] :=
  ⟨bridgeScan_none ls 0, rfl, rfl⟩

/-- C6: the bridge checks the cancellation signal after each send; if the
signal fires after `n` completed checks, the delivered lines are exactly the
first `min (n+1) (length)` stream lines — a prefix of the stream, so at most
one line is sent after the fire, remaining buffered lines are not drained,
and the cleanup then closes the channel; concretely, with lines
a, bufferedTail and a fire before the first check, only a is delivered. -/
theorem logs_cancel_stops_bridge (ls : List String) (n : Nat) :
    (bridgeRun { lines := ls, readErr := false } (some n)).sent =
      ls.take (n + 1) ∧
    (bridgeRun { lines := ls, readErr := false } (some n)).sent.length - n ≤ 1 ∧
    (bridgeRun { lines := ls, readErr := false } (some n)).sent <+: ls ∧
    (bridgeRun { lines := ls, readErr := false } (some n)).chanCloses = 1 ∧
    (bridgeRun { lines := ["a", "bufferedTail"], readErr := false }
        (some 0)).sent = ["a"] := by
  have h : (bridgeRun { lines := ls, readErr := false } (some n)).sent =
      ls.take (n + 1) := by
    simpa using bridgeScan_some ls 0 n
  refine ⟨h, ?_, ?_, rfl, rfl⟩
  · rw [h]
    have := List.length_take (n + 1) ls
    omega
  · rw [h]
    exact List.take_prefix _ _

/-! ## Lemmas about the one-shot cancellation signal -/

theorem runFires_fired (l : List Actor) : runFires l true = (true, 0) := by
  induction l with
  | nil => rfl
  | cons a rest ih => simp [runFires, fireCancel, ih]

theorem runFires_char (l : List Actor) :
    runFires l false = if l = [] then (false, 0) else (true, 1) := by
  cases l with
  | nil => rfl
  | cons a rest => simp [runFires, fireCancel, runFires_fired]

/-- C7: the cancellation signal is one-shot: under any sequence of fire
requests by the three actors it transitions at most once from armed to
fired (exactly once when at least one request occurs), a second fire on an
already-fired signal is a no-op, and the outcome is invariant under
permuting the actors' requests (firing is commutative and idempotent). -/
theorem logs_cancel_one_shot (l l2 : List Actor) (a b : Actor) (s : Bool) :
    (runFires l false).2 ≤ 1 ∧
    (l ≠ [] → runFires l false = (true, 1)) ∧
    fireCancel a (fireCancel b s) = fireCancel b s ∧
    (l.Perm l2 → runFires l false = runFires l2 false) := by
  refine ⟨?_, ?_, rfl, ?_⟩
  · rw [runFires_char]
    split <;> simp
  · intro h
    rw [runFires_char]
    simp [h]
  · intro h
    rw [runFires_char, runFires_char]
    by_cases hl : l = []
    · subst hl
      have : l2 = [] := (h.symm).eq_nil
      simp [this]
    · have hl2 : l2 ≠ [] := by
        intro e
        subst e
        exact hl h.eq_nil
      simp [hl, hl2]

/-- Witness for C7 at concrete inputs: a double caller-cancel fires exactly
once, and swapping two actors' requests leaves the outcome unchanged. -/
theorem logs_cancel_one_shot_witness :
    runFires [Actor.caller, Actor.caller] false = (true, 1) ∧
    runFires [Actor.caller, Actor.watchdog] false =
      runFires [Actor.watchdog, Actor.caller] false := by
  constructor
  · exact (logs_cancel_one_shot [Actor.caller, Actor.caller]
      [Actor.caller, Actor.caller] Actor.caller Actor.caller true).2.1 (by simp)
  · exact (logs_cancel_one_shot [Actor.caller, Actor.watchdog]
      [Actor.watchdog, Actor.caller] Actor.caller Actor.caller true).2.2.2
      (List.Perm.swap Actor.watchdog Actor.caller [])

/-! ## The watchdog race (claims C1, C2, C4) -/

/-- The race interleaving of the success path with an empty stream: the
watchdog timer elapses after `req.Stream()` has returned successfully but
before the main goroutine clears `blocked` (container.go:103-107), so the
watchdog closes the channel (container.go:90) and the bridge's deferred
cleanup closes it a second time (container.go:112). -/
def doubleCloseTrace : List Event :=
  [.streamOk, .timer, .unblock, .cleanup]

/-- The same race with a one-line stream: the bridge's send lands on the
channel the watchdog already closed. -/
def sendOnClosedTrace : List Event :=
  [.streamOk, .timer, .unblock, .send "a", .cleanup]

/-- C1: the claim that the delivery channel is closed exactly once and never
written after close fails on the code: both race traces above are genuine
interleavings of the success-path goroutines, yet the first closes the
channel twice (a Go close-of-closed-channel panic) and the second both
closes it twice and sends a line on the already-closed channel (a Go
send-on-closed-channel panic). -/
theorem logs_double_close_race :
    doubleCloseTrace ∈ interleavings (mainOk []) watchdogThread ∧
    (runTrace doubleCloseTrace).chanCloses = 2 ∧
    sendOnClosedTrace ∈ interleavings (mainOk ["a"]) watchdogThread ∧
    (runTrace sendOnClosedTrace).chanCloses = 2 ∧
    (runTrace sendOnClosedTrace).sentOnClosed = true := by
  decide

/-- C2 counterexample: on the open-failure path the channel is not
"immediately closed" and the cancellation signal is not fired at the moment
`Logs` returns the error: after the `streamErr` event — the whole of the
main goroutine's execution, and a prefix of the valid complete execution
`[streamErr, timer]` — the error has been returned but the channel has zero
closes and the signal is still armed. -/
theorem logs_open_failure_return_state :
    [Event.streamErr, Event.timer] ∈ interleavings mainErr watchdogThread ∧
    (runTrace [Event.streamErr]).returnedErr = true ∧
    (runTrace [Event.streamErr]).chanCloses = 0 ∧
    (runTrace [Event.streamErr]).cancelFired = false ∧
    (runTrace [Event.streamErr]).sent = [] := by
  decide

/-- C2 amended: on every complete execution of the open-failure scenario the
error is returned to the caller, the bridge never starts and no line is ever
delivered; the delivery channel is closed (exactly once) and the
cancellation signal fired not at return time but by the watchdog when its
grace timer elapses with the stream-opened flag still false. -/
theorem logs_open_failure_watchdog_closes :
    ∀ t ∈ interleavings mainErr watchdogThread,
      (runTrace t).returnedErr = true ∧
      (runTrace t).chanCloses = 1 ∧
      (runTrace t).cancelFired = true ∧
      (runTrace t).sent = [] ∧
      (runTrace t).sentOnClosed = false := by
  decide

/-- Witness for the amended C2 at the concrete execution in which the open
error arrives before the grace timer elapses. -/
theorem logs_open_failure_watchdog_closes_witness :
    (runTrace [Event.streamErr, Event.timer]).returnedErr = true ∧
    (runTrace [Event.streamErr, Event.timer]).chanCloses = 1 ∧
    (runTrace [Event.streamErr, Event.timer]).cancelFired = true ∧
    (runTrace [Event.streamErr, Event.timer]).sent = [] ∧
    (runTrace [Event.streamErr, Event.timer]).sentOnClosed = false :=
  logs_open_failure_watchdog_closes [Event.streamErr, Event.timer] (by decide)

/-- C4: when the grace timer elapses, the watchdog closes the channel and
fires the cancellation signal iff the stream-opened flag (read under the
lock) is still false at its check; if the flag was set true before the
check the watchdog performs no action at all — and in that case a line can
still be delivered afterwards: in the execution where the timer fires after
`unblock`, the line a is delivered, the channel is closed exactly once (by
the bridge) and nothing is sent on a closed channel. -/
theorem logs_watchdog_flag_guard (s : SessionState) :
    (s.streamOpened = false →
      step s .timer =
        { s with chanCloses := s.chanCloses + 1, cancelFired := true }) ∧
    (s.streamOpened = true → step s .timer = s) ∧
    ([Event.streamOk, Event.unblock, Event.timer, Event.send "a",
        Event.cleanup] ∈ interleavings (mainOk ["a"]) watchdogThread ∧
      (runTrace [Event.streamOk, Event.unblock, Event.timer, Event.send "a",
        Event.cleanup]).sent = ["a"] ∧
      (runTrace [Event.streamOk, Event.unblock, Event.timer, Event.send "a",
        Event.cleanup]).chanCloses = 1 ∧
      (runTrace [Event.streamOk, Event.unblock, Event.timer, Event.send "a",
        Event.cleanup]).sentOnClosed = false) := by
  refine ⟨?_, ?_, by decide⟩
  · intro h
    have hb : s.blocked = true := by
      simpa [SessionState.streamOpened] using h
    simp [step, hb]
  · intro h
    have hb : s.blocked = false := by
      simpa [SessionState.streamOpened] using h
    simp [step, hb]

/-- Witness for C4 at the two concrete flag states: from the initial state
(flag still false) the timer closes and cancels; with the flag already set
true the timer step is the identity. -/
theorem logs_watchdog_flag_guard_witness :
    step SessionState.init .timer =
      { SessionState.init with chanCloses := 1, cancelFired := true } ∧
    step { SessionState.init with blocked := false } .timer =
      { SessionState.init with blocked := false } := by
  constructor
  · exact (logs_watchdog_flag_guard SessionState.init).1 (by decide)
  · exact (logs_watchdog_flag_guard
      { SessionState.init with blocked := false }).2.1 (by decide)

/-! ## Claims about the pure helpers (C8, C9, C10) -/

/-- A plain container value for concrete test pods. -/
def mkCo (n : String) : V1Container :=
  { name := n, image := "img", livenessProbe := none, readinessProbe := none,
    resources := { requests := [], limits := [] } }

/-- A concrete pod with one init container and two regular containers. -/
def samplePod : Pod :=
  { spec := { initContainers := [mkCo "ic"],
              containers := [mkCo "c1", mkCo "c2"] },
    status := { containerStatuses := [], initContainerStatuses := [] },
    creationTimestamp := 0 }

/-- A concrete pod with no containers at all: the only shape on which
`Container.List` reaches its `return cc, nil`. -/
def emptyPod : Pod :=
  { spec := { initContainers := [], containers := [] },
    status := { containerStatuses := [], initContainerStatuses := [] },
    creationTimestamp := 0 }

/-- C8: the claimed nil-error init-then-regular listing is the evident
intent, but the code panics: `List` hands each loop container to `New` by
value (container.go:138 and 143), and `New`'s type assertion
`i.(*v1.Container)` (container.go:56) requires a pointer, so for every pod
with at least one init or regular container `List` panics with an
interface-conversion error instead of returning entries; on the concrete
three-container pod the evaluation is that panic, and only a containerless
pod reaches the `return cc, nil` with its empty result and nil error. -/
theorem container_list_type_assertion_panic (pod : Pod)
    (h : pod.spec.initContainers ≠ [] ∨ pod.spec.containers ≠ []) :
    (∃ m, ContainerList pod = .panic m) ∧
    ContainerList samplePod = .panic assertionPanic ∧
    ContainerList emptyPod = .ok ([], none) := by
  refine ⟨?_, rfl, rfl⟩
  rcases hic : pod.spec.initContainers with _ | ⟨co, rest⟩
  · rcases hco : pod.spec.containers with _ | ⟨co, rest⟩
    · rcases h with h1 | h2
      · exact absurd hic h1
      · exact absurd hco h2
    · exact ⟨assertionPanic, by
        simp [ContainerList, buildEntries, NewEntry, hic, hco]⟩
  · exact ⟨assertionPanic, by
      simp [ContainerList, buildEntries, NewEntry, hic]⟩

/-- Witness for C8 on the concrete pod: `List` on the pod with one init and
two regular containers panics with the interface-conversion message. -/
theorem container_list_type_assertion_panic_witness :
    (∃ m, ContainerList samplePod = GoResult.panic m) ∧
    ContainerList samplePod = GoResult.panic assertionPanic := by
  have h := container_list_type_assertion_panic samplePod
    (Or.inl (by simp [samplePod]))
  exact ⟨h.1, h.2.1⟩

/-- The status-selection fold keeps the last matching element: it equals the
last entry of the filtered list. -/
theorem findStatus_eq_getLast_filter (ss : List ContainerStatus) (n : String) :
    findStatus ss n = (ss.filter (fun c => c.name == n)).getLast? := by
  induction ss using List.reverseRecOn with
  | nil => rfl
  | append_singleton ss c ih =>
    have hfold : findStatus (ss ++ [c]) n =
        if c.name != n then findStatus ss n else some c := by
      simp [findStatus, List.foldl_append]
    by_cases h : c.name = n
    · subst h
      rw [hfold, List.filter_append]
      simp [List.getLast?_concat]
    · rw [hfold, List.filter_append, ih]
      simp [h]

/-- C9: in `Container.Fields`, if no entry of the pod's container statuses
or init-container statuses carries the instance's name, the ready, state and
restarts columns are the defaults "false", the missing-value marker and "0";
and whenever the container-status list has matches, the columns come from
its last matching entry (so the init-status list is only consulted when the
container-status list has no match). -/
theorem fields_status_selection (pod : Pod) (i : V1Container)
    (m : List ContainerMetrics) :
    ((∀ c ∈ pod.status.containerStatuses, c.name ≠ i.name) →
      (∀ c ∈ pod.status.initContainerStatuses, c.name ≠ i.name) →
      (Fields pod i m)[2]? = some "false" ∧
      (Fields pod i m)[3]? = some MissingValue ∧
      (Fields pod i m)[4]? = some "0") ∧
    (∀ c, (pod.status.containerStatuses.filter
        (fun s => s.name == i.name)).getLast? = some c →
      (Fields pod i m)[2]? = some (boolToStr c.ready) ∧
      (Fields pod i m)[3]? = some (toState c.state) ∧
      (Fields pod i m)[4]? = some (toString c.restartCount)) := by
  constructor
  · intro h1 h2
    have e1 : findStatus pod.status.containerStatuses i.name = none := by
      rw [findStatus_eq_getLast_filter]
      have : pod.status.containerStatuses.filter
          (fun c => c.name == i.name) = [] :=
        List.filter_eq_nil_iff.mpr (fun c hc => by simpa using h1 c hc)
      rw [this]
      rfl
    have e2 : findStatus pod.status.initContainerStatuses i.name = none := by
      rw [findStatus_eq_getLast_filter]
      have : pod.status.initContainerStatuses.filter
          (fun c => c.name == i.name) = [] :=
        List.filter_eq_nil_iff.mpr (fun c hc => by simpa using h2 c hc)
      rw [this]
      rfl
    refine ⟨?_, ?_, ?_⟩ <;> simp [Fields, e1, e2]
  · intro c hc
    have e1 : findStatus pod.status.containerStatuses i.name = some c := by
      rw [findStatus_eq_getLast_filter]
      exact hc
    refine ⟨?_, ?_, ?_⟩ <;> simp [Fields, e1]

/-- A concrete pod whose container-status list holds two entries named co,
with different ready/restart data, plus a decoy init status of the same
name. -/
def statusPod : Pod :=
  { spec := { initContainers := [], containers := [mkCo "co"] },
    status :=
      { containerStatuses :=
          [{ name := "co", ready := false,
             state := { waiting := none, terminated := none,
                        running := none }, restartCount := 1 },
           { name := "co", ready := true,
             state := { waiting := none, terminated := none,
                        running := some {} }, restartCount := 5 }],
        initContainerStatuses :=
          [{ name := "co", ready := false,
             state := { waiting := some { reason := "Init" },
                        terminated := none, running := none },
             restartCount := 9 }] },
    creationTimestamp := 0 }

/-- Witness for C9: on `statusPod` the columns come from the second (last)
matching container status — ready true, Running, 5 restarts, not from the
init status — and on `samplePod` (no statuses at all) the defaults appear. -/
theorem fields_status_selection_witness :
    ((Fields statusPod (mkCo "co") [])[2]? = some "true" ∧
      (Fields statusPod (mkCo "co") [])[3]? = some "Running" ∧
      (Fields statusPod (mkCo "co") [])[4]? = some "5") ∧
    ((Fields samplePod (mkCo "c1") [])[2]? = some "false" ∧
      (Fields samplePod (mkCo "c1") [])[3]? = some MissingValue ∧
      (Fields samplePod (mkCo "c1") [])[4]? = some "0") := by
  constructor
  · have h := (fields_status_selection statusPod (mkCo "co") []).2
      { name := "co", ready := true,
        state := { waiting := none, terminated := none, running := some {} },
        restartCount := 5 } (by decide)
    exact h
  · exact (fields_status_selection samplePod (mkCo "c1") []).1
      (by decide) (by decide)

/-- C10: the `resources` helper gives requests precedence over limits: a
non-empty requests list yields the formatted requests (limits ignored), an
empty requests list with non-empty limits yields the formatted limits, and
two empty lists yield the pair ("0", "0"). -/
theorem resources_requests_precedence (c : V1Container) :
    (c.resources.requests ≠ [] → resources c = toRes c.resources.requests) ∧
    (c.resources.requests = [] → c.resources.limits ≠ [] →
      resources c = toRes c.resources.limits) ∧
    (c.resources.requests = [] → c.resources.limits = [] →
      resources c = ("0", "0")) := by
  refine ⟨fun h => ?_, fun h1 h2 => ?_, fun h1 h2 => ?_⟩
  · simp only [resources]
    rw [if_neg (by simpa [List.length_eq_zero] using h)]
  · simp only [resources]
    rw [if_pos (by simp [h1]),
      if_pos (by simpa [List.length_eq_zero] using h2)]
  · simp [resources, h1, h2]

/-- Witness for C10 at three concrete containers: requests only, limits
only, and neither. -/
theorem resources_requests_precedence_witness :
    resources { mkCo "a" with
        resources := { requests := [("cpu", ⟨100, 0⟩)], limits := [] } } =
      toRes [("cpu", ⟨100, 0⟩)] ∧
    resources { mkCo "b" with
        resources := { requests := [], limits := [("cpu", ⟨200, 0⟩)] } } =
      toRes [("cpu", ⟨200, 0⟩)] ∧
    resources (mkCo "c") = ("0", "0") := by
  refine ⟨?_, ?_, ?_⟩
  · exact (resources_requests_precedence _).1 (by simp)
  · exact (resources_requests_precedence _).2.1 rfl (by simp)
  · exact (resources_requests_precedence (mkCo "c")).2.2 rfl rfl

end K9s
